import Mathlib

/-!
Verification of the egghunt repository: a shallow embedding of
`api_key_manager.py`, the worker of `egg_hunt_V2.py`, and the
egg-difference report of `egg_hunt.py`, with theorems settling the
specification's claims about them.
-/

set_option autoImplicit false

deriving instance DecidableEq for Except

namespace EggHunt

/-- Association-list lookup keyed by strings, modelling Python `dict`
membership/indexing (`d[k]`, `k in d`). Returns the first binding. -/
def lookupA {β : Type} : List (String × β) → String → Option β
  | [], _ => none
  | (k, v) :: rest, a => if k = a then some v else lookupA rest a

/-- Association-list update of an existing key, modelling
`d[k] = v` for a key already present (leaves the list unchanged when the
key is absent; callers only use it on present keys). -/
def updateA {β : Type} : List (String × β) → String → β → List (String × β)
  | [], _, _ => []
  | (k, v) :: rest, a, b =>
    if k = a then (k, b) :: rest else (k, v) :: updateA rest a b

/-! ## `api_key_manager.py` -/

/-- The per-faction state of `itertools.cycle(data["keys"])`: the
underlying key list and how many keys have been yielded so far. -/
structure KeyCycle where
  keys : List String
  idx : Nat
  deriving DecidableEq

/-- `next(cycle)`: on a non-empty key list yields `keys[idx % len]` and
advances; on `cycle([])` raises `StopIteration` (modelled as an error). -/
def KeyCycle.next (c : KeyCycle) : Except String (String × KeyCycle) :=
  if h : c.keys.length = 0 then
    Except.error "StopIteration"
  else
    Except.ok (c.keys.get ⟨c.idx % c.keys.length, Nat.mod_lt _ (Nat.pos_of_ne_zero h)⟩,
      ⟨c.keys, c.idx + 1⟩)

/-- A faction's entry in `faction_keys.json`: its display name and its
`"keys"` field, `none` when the entry lacks a `"keys"` key (so that
`data["keys"]` raises `KeyError`). -/
structure FactionData where
  faction_name : String
  keys : Option (List String)
  deriving DecidableEq

/-- The `APIKeyManager` state: `faction_keys` as parsed from the JSON file
and `key_cycles`, the per-faction cycle iterators. -/
structure APIKeyManager where
  faction_keys : List (String × FactionData)
  key_cycles : List (String × KeyCycle)
  deriving DecidableEq

/-- The registration loop of `_load_keys`: builds one cycle per faction,
stopping at the first faction whose entry lacks `"keys"` (the `KeyError`
is caught by the surrounding `except`, abandoning the rest of the loop). -/
def buildCycles : List (String × FactionData) → List (String × KeyCycle)
  | [] => []
  | (fid, d) :: rest =>
    match d.keys with
    | none => []
    | some ks => (fid, ⟨ks, 0⟩) :: buildCycles rest

/-- `APIKeyManager.__init__` / `_load_keys`: `file` is `none` when opening
or JSON-parsing `keys_file` raises (leaving both dicts empty), and
`some entries` when it parses. Every exception is caught, so construction
always returns a manager. -/
def load_keys (file : Option (List (String × FactionData))) : APIKeyManager :=
  match file with
  | none => ⟨[], []⟩
  | some entries => ⟨entries, buildCycles entries⟩

/-- `APIKeyManager.get_next_key`: `ValueError` when the faction id is not
in `key_cycles`, otherwise the cycle's next key together with the updated
manager state. -/
def get_next_key (m : APIKeyManager) (fid : String) :
    Except String (String × APIKeyManager) :=
  match lookupA m.key_cycles fid with
  | none => Except.error ("ValueError: Faction ID " ++ fid ++ " not found in the keys file.")
  | some c =>
    match c.next with
    | Except.error e => Except.error e
    | Except.ok (key, c2) => Except.ok (key, ⟨m.faction_keys, updateA m.key_cycles fid c2⟩)

/-- `N` successive calls to `get_next_key` for one faction, threading the
manager state; a raising call leaves the state unchanged (Python raising
`ValueError`/`StopIteration` mutates nothing). -/
def callsFrom (m : APIKeyManager) (fid : String) : Nat → List (Except String String)
  | 0 => []
  | Nat.succ n =>
    match get_next_key m fid with
    | Except.error e => Except.error e :: callsFrom m fid n
    | Except.ok (key, m2) => Except.ok key :: callsFrom m2 fid n

/-! ## `egg_hunt_V2.py` — the fetch worker -/

/-- A 200-response JSON body, abstracted to the three projections the V2
worker reads: the `"error"` code when an `"error"` key is present, the
`"personalstats"` list of `{name, value}` entries (empty when the key is
absent, as `response_data.get("personalstats", [])` yields), and the
nested `personalstats.items.found.easter_eggs` value (`none` when any
link of the `.get` chain is missing, which the code defaults to 0). -/
structure Body where
  errorCode : Option Int
  stats : List (String × Int)
  easter_eggs : Option Int
  deriving DecidableEq

/-- One external call as the worker observes it: either the transport
layer (or JSON decoding) raised an exception, or an HTTP status code
arrived together with a body. -/
inductive Resp where
  | exn : Resp
  | status : Nat → Body → Resp
  deriving DecidableEq

/-- `next((stat["value"] for stat in personalstats if stat["name"] ==
"eastereggsfound"), 0)`: the first matching stat's value, defaulting 0. -/
def previousTotalOf : List (String × Int) → Int
  | [] => 0
  | (n, v) :: rest => if n = "eastereggsfound" then v else previousTotalOf rest

/-- `response_data.get("personalstats", {}).get("items", {}).get("found",
{}).get("easter_eggs", 0)`. -/
def currentTotalOf (b : Body) : Int :=
  b.easter_eggs.getD 0

/-- `"error" in response_data and response_data["error"]["code"] == 5`. -/
def isRateLimited (b : Body) : Bool :=
  b.errorCode == some 5

/-- The record the V2 worker writes into `all_personal_stats`. -/
structure ResultRecord where
  name : String
  faction_name : String
  current_year_value : Int
  all_time_total : Int
  deriving DecidableEq

/-- The stats JSON the V1 worker stores for a member, abstracted to the
field the report later reads: `personalstats.items.found.easter_eggs`
(`none` when any link of the chain is missing). -/
structure V1Stats where
  easter_eggs : Option Int
  deriving DecidableEq

/-- The defaulted nested read
`stats.get("personalstats", {}).get("items", {}).get("found", {}).get("easter_eggs", 0)`. -/
def V1Stats.eggs (s : V1Stats) : Int :=
  s.easter_eggs.getD 0

/-- The observable actions of one worker-loop iteration: HTTP requests,
the 60s rate-limit backoff sleep, re-enqueuing (`member_queue.put`), the
acknowledgement (`member_queue.task_done()`), the end-of-item pacing
sleep, and the result-store writes of V2 and V1 respectively. -/
inductive Action where
  | httpGet : Bool → Action
  | sleepBackoff : Action
  | requeue : String → Action
  | taskDone : Action
  | sleepPacing : Action
  | storeResult : String → ResultRecord → Action
  | storeStats : String → V1Stats → Action
  deriving DecidableEq

/-- One external call as the V1 worker observes it. -/
inductive RespV1 where
  | exn : RespV1
  | status : Nat → V1Stats → RespV1
  deriving DecidableEq

/-- One iteration of `fetch_personal_stats_worker` in `egg_hunt_V2.py`
after the item is dequeued and the API key obtained: the timestamped
fetch (`r1`), the plain fetch (`r2`), rate-limit requeue-and-continue
(whose `continue` still runs the `finally` ack but skips the trailing
pacing sleep), transport failures defaulting the total to 0, the caught
exception path, and the success path storing
`max 0 (current_total - previous_total)`. -/
def fetch_personal_stats_attempt (faction_name : String)
    (members : List (String × String)) (member_id : String)
    (r1 r2 : Resp) : List Action :=
  match r1 with
  | Resp.exn => [Action.httpGet true, Action.taskDone, Action.sleepPacing]
  | Resp.status c1 b1 =>
    if c1 = 200 ∧ isRateLimited b1 then
      [Action.httpGet true, Action.sleepBackoff, Action.requeue member_id,
        Action.taskDone]
    else
      let previous_total : Int := if c1 = 200 then previousTotalOf b1.stats else 0
      match r2 with
      | Resp.exn =>
        [Action.httpGet true, Action.httpGet false, Action.taskDone,
          Action.sleepPacing]
      | Resp.status c2 b2 =>
        if c2 = 200 ∧ isRateLimited b2 then
          [Action.httpGet true, Action.httpGet false, Action.sleepBackoff,
            Action.requeue member_id, Action.taskDone]
        else
          let current_total : Int := if c2 = 200 then currentTotalOf b2 else 0
          let current_year_value : Int := max 0 (current_total - previous_total)
          [Action.httpGet true, Action.httpGet false,
            Action.storeResult member_id
              ⟨(lookupA members member_id).getD "Unknown", faction_name,
                current_year_value, current_total⟩,
            Action.taskDone, Action.sleepPacing]

/-- One iteration of `fetch_personal_stats_worker` in `egg_hunt.py` after
the item is dequeued: a single fetch; only a 200 response stores the
stats; non-200 and exception paths just log; all paths run the `finally`
ack and then the 0.6s pacing sleep. -/
def fetch_personal_stats_attempt_V1 (member_id : String) (r : RespV1) :
    List Action :=
  match r with
  | RespV1.exn => [Action.httpGet false, Action.taskDone, Action.sleepPacing]
  | RespV1.status c stats =>
    if c = 200 then
      [Action.httpGet false, Action.storeStats member_id stats, Action.taskDone,
        Action.sleepPacing]
    else
      [Action.httpGet false, Action.taskDone, Action.sleepPacing]

/-- `all_personal_stats[member_id] = record`: overwrite the existing
binding or append a new one. -/
def storeSet (s : List (String × ResultRecord)) (k : String) (v : ResultRecord) :
    List (String × ResultRecord) :=
  if (lookupA s k).isSome then updateA s k v else s ++ [(k, v)]

/-- Replay the store writes of an action trace onto the result store. -/
def applyActions (s : List (String × ResultRecord)) : List Action →
    List (String × ResultRecord)
  | [] => s
  | Action.storeResult mid rec :: rest => applyActions (storeSet s mid rec) rest
  | _ :: rest => applyActions s rest

/-- One full worker-loop iteration including the key fetch: `api_key =
key_manager.get_next_key(faction_id)` sits *outside* the `try`, so a
raising `get_next_key` propagates out of the item's handling (modelled as
`Except.error`); otherwise the iteration runs `fetch_personal_stats_attempt`. -/
def fetch_personal_stats_step (m : APIKeyManager) (faction_id faction_name : String)
    (members : List (String × String)) (member_id : String) (r1 r2 : Resp) :
    Except String (APIKeyManager × List Action) :=
  match get_next_key m faction_id with
  | Except.error e => Except.error e
  | Except.ok (_, m2) =>
    Except.ok (m2, fetch_personal_stats_attempt faction_name members member_id r1 r2)

/-- The V2 worker loop, run sequentially: dequeue until the queue is
empty, fetch a key (a raising `get_next_key` escapes the loop, killing
the thread with the store as is), run the attempt, apply its store
writes, and re-enqueue on rate limit. `env member try` gives the two
responses the `try`-th attempt for `member` observes; `fuel` bounds the
number of iterations (requeues can exceed the initial queue length).
Returns the final store and the concatenated action trace. -/
def fetch_personal_stats_worker (faction_id faction_name : String)
    (members : List (String × String)) (env : String → Nat → Resp × Resp) :
    Nat → APIKeyManager → List String → (String → Nat) →
    List (String × ResultRecord) → List (String × ResultRecord) × List Action
  | 0, _, _, _, s => (s, [])
  | Nat.succ _, _, [], _, s => (s, [])
  | Nat.succ fuel, m, mid :: rest, tries, s =>
    match get_next_key m faction_id with
    | Except.error _ => (s, [])
    | Except.ok (_, m2) =>
      let r := env mid (tries mid)
      let acts := fetch_personal_stats_attempt faction_name members mid r.1 r.2
      let tries2 : String → Nat := fun x => if x = mid then tries x + 1 else tries x
      let queue2 := if Action.requeue mid ∈ acts then rest ++ [mid] else rest
      let res := fetch_personal_stats_worker faction_id faction_name members env
        fuel m2 queue2 tries2 (applyActions s acts)
      (res.1, acts ++ res.2)

/-! ## `egg_hunt.py` — the report -/

/-- One row of the V1 report for reference-snapshot entry `p`:
`new_data.get(member_id, {})…` eggs (default 0) minus the original eggs,
with `member_names.get(member_id, "Unknown")` as the display name. -/
def egg_row (new_data : List (String × V1Stats))
    (member_names : List (String × String)) (p : String × V1Stats) :
    String × Int :=
  ((lookupA member_names p.1).getD "Unknown",
    (match lookupA new_data p.1 with
      | some s => s.eggs
      | none => 0) - p.2.eggs)

/-- The `egg_differences` computation: one row per entry of the reference
snapshot `original_data`, in order. The difference is *not* floored
at 0. -/
def egg_differences (original_data new_data : List (String × V1Stats))
    (member_names : List (String × String)) : List (String × Int) :=
  original_data.map (egg_row new_data member_names)

/-- `sorted(egg_differences, key=lambda x: x[1], reverse=True)`: stable
descending sort on the difference. -/
def sorted_egg_differences (original_data new_data : List (String × V1Stats))
    (member_names : List (String × String)) : List (String × Int) :=
  (egg_differences original_data new_data member_names).mergeSort
    (fun a b => b.2 ≤ a.2)

/-! ## Association-list lemmas -/

theorem lookupA_updateA_self {β : Type} (l : List (String × β)) (a : String)
    (b : β) (c : β) (h : lookupA l a = some c) :
    lookupA (updateA l a b) a = some b := by
  induction l with
  | nil => simp [lookupA] at h
  | cons p rest ih =>
    obtain ⟨k, v⟩ := p
    by_cases hk : k = a
    · simp [lookupA, updateA, hk]
    · simp [lookupA, updateA, hk] at h ⊢
      exact ih h

theorem lookupA_updateA_none {β : Type} (l : List (String × β)) (a : String)
    (b : β) (h : lookupA l a = none) :
    updateA l a b = l := by
  induction l with
  | nil => simp [updateA]
  | cons p rest ih =>
    obtain ⟨k, v⟩ := p
    by_cases hk : k = a
    · simp [lookupA, hk] at h
    · simp [lookupA, hk] at h
      simp [updateA, hk, ih h]

/-! ## Key-rotation lemmas -/

theorem get_next_key_registered (m : APIKeyManager) (fid : String)
    (keys : List String) (idx : Nat) (hk : 0 < keys.length)
    (h : lookupA m.key_cycles fid = some ⟨keys, idx⟩) :
    get_next_key m fid =
      Except.ok (keys.get ⟨idx % keys.length, Nat.mod_lt _ hk⟩,
        ⟨m.faction_keys, updateA m.key_cycles fid ⟨keys, idx + 1⟩⟩) := by
  simp [get_next_key, h, KeyCycle.next, Nat.pos_iff_ne_zero.mp hk]

theorem callsFrom_registered (N : Nat) :
    ∀ (m : APIKeyManager) (fid : String) (keys : List String) (idx : Nat)
      (hk : 0 < keys.length),
      lookupA m.key_cycles fid = some ⟨keys, idx⟩ →
      callsFrom m fid N =
        (List.range N).map
          (fun i => Except.ok (keys.get ⟨(idx + i) % keys.length, Nat.mod_lt _ hk⟩)) := by
  induction N with
  | zero => intro m fid keys idx hk _; simp [callsFrom]
  | succ n ih =>
    intro m fid keys idx hk h
    have h2 : lookupA (updateA m.key_cycles fid ⟨keys, idx + 1⟩) fid =
        some ⟨keys, idx + 1⟩ := lookupA_updateA_self _ _ _ _ h
    rw [callsFrom, get_next_key_registered m fid keys idx hk h]
    dsimp only
    rw [ih ⟨m.faction_keys, updateA m.key_cycles fid ⟨keys, idx + 1⟩⟩ fid keys
      (idx + 1) hk h2, List.range_succ_eq_map]
    simp only [List.map_cons, List.map_map]
    congr 1
    apply List.map_congr_left
    intro i _
    have harith : idx + 1 + i = idx + Nat.succ i := by omega
    simp [Function.comp, harith]

theorem callsFrom_of_lookup_none (m : APIKeyManager) (fid : String) (N : Nat)
    (h : lookupA m.key_cycles fid = none) :
    callsFrom m fid N =
      List.replicate N
        (Except.error ("ValueError: Faction ID " ++ fid ++ " not found in the keys file.")) := by
  induction N with
  | zero => simp [callsFrom]
  | succ n ih => simp [callsFrom, get_next_key, h, ih, List.replicate_succ]

/-! ## Counting lemmas for round-robin rotation -/

theorem countStep (k j N : Nat) (hk : 0 < k) (hj : j < k) :
    (N + 1) / k + (if j < (N + 1) % k then 1 else 0) =
      (N / k + if j < N % k then 1 else 0) + (if N % k = j then 1 else 0) := by
  have hdm : k * (N / k) + N % k = N := Nat.div_add_mod N k
  have hmlt : N % k < k := Nat.mod_lt _ hk
  rcases Nat.lt_or_ge (N % k + 1) k with h | h
  · have e1 : N + 1 = k * (N / k) + (N % k + 1) := by omega
    have hmod : (N + 1) % k = N % k + 1 := by
      rw [e1, Nat.mul_add_mod, Nat.mod_eq_of_lt h]
    have hdiv : (N + 1) / k = N / k := by
      rw [e1, Nat.mul_add_div hk, Nat.div_eq_of_lt h, Nat.add_zero]
    rw [hmod, hdiv]
    split_ifs <;> omega
  · have hke : N % k + 1 = k := by omega
    have e1 : N + 1 = k * (N / k) + k := by omega
    have hmod : (N + 1) % k = 0 := by rw [e1, Nat.mul_add_mod, Nat.mod_self]
    have hdiv : (N + 1) / k = N / k + 1 := by
      rw [e1, Nat.mul_add_div hk, Nat.div_self hk]
    rw [hmod, hdiv]
    split_ifs <;> omega

theorem length_filter_range_mod (k j : Nat) (hk : 0 < k) (hj : j < k) (N : Nat) :
    ((List.range N).filter (fun i => i % k = j)).length =
      N / k + if j < N % k then 1 else 0 := by
  induction N with
  | zero => simp
  | succ n ih =>
    rw [List.range_succ, List.filter_append, List.length_append, ih,
      countStep k j n hk hj]
    by_cases hc : n % k = j <;> simp [List.filter_cons, hc]

theorem floor_or_ceil (k j N : Nat) (hk : 0 < k) :
    (N / k + if j < N % k then 1 else 0) = N / k ∨
    (N / k + if j < N % k then 1 else 0) = (N + k - 1) / k := by
  by_cases h : j < N % k
  · right
    have hdm : k * (N / k) + N % k = N := Nat.div_add_mod N k
    have hmlt : N % k < k := Nat.mod_lt _ hk
    have e2 : k * (N / k + 1) = k * (N / k) + k := by ring
    have e1 : N + k - 1 = k * (N / k + 1) + (N % k - 1) := by omega
    have h0 : (N % k - 1) / k = 0 := Nat.div_eq_of_lt (by omega)
    rw [e1, Nat.mul_add_div hk, h0]
    simp [h]
  · left
    simp [h]

/-! ## Claim theorems for the key rotator -/

/-- C2: for a faction registered with a fresh cycle over `k` distinct keys,
`N` successive `get_next_key` calls follow cyclic order — call `i` returns
`keys[i % k]` — never raise, and return each key either `⌊N/k⌋` or
`⌈N/k⌉ = (N + k - 1) / k` times. -/
theorem get_next_key_round_robin (m : APIKeyManager) (fid : String)
    (keys : List String) (k N : Nat)
    (hreg : lookupA m.key_cycles fid = some ⟨keys, 0⟩)
    (hlen : keys.length = k) (hk : 0 < k) (hnd : keys.Nodup) :
    (∀ i, i < N → (callsFrom m fid N).getD i (Except.error "") =
        Except.ok (keys.getD (i % k) "")) ∧
    (∀ e ∈ callsFrom m fid N, e.isOk = true) ∧
    (∀ j, j < k →
      ((callsFrom m fid N).filter
          (fun e => e == (Except.ok (keys.getD j "") : Except String String))).length = N / k ∨
      ((callsFrom m fid N).filter
          (fun e => e == (Except.ok (keys.getD j "") : Except String String))).length = (N + k - 1) / k) := by
  subst hlen
  have hmap := callsFrom_registered N m fid keys 0 hk hreg
  have hmap' : callsFrom m fid N =
      (List.range N).map (fun i => Except.ok (keys.getD (i % keys.length) "")) := by
    rw [hmap]
    apply List.map_congr_left
    intro i _
    rw [List.getD_eq_getElem _ _ (Nat.mod_lt _ hk)]
    simp [List.get_eq_getElem, Nat.zero_add]
  refine ⟨?_, ?_, ?_⟩
  · intro i hi
    rw [hmap', List.getD_eq_getElem _ _ (by simpa using hi), List.getElem_map,
      List.getElem_range]
  · intro e he
    rw [hmap'] at he
    simp only [List.mem_map] at he
    obtain ⟨i, _, rfl⟩ := he
    rfl
  · intro j hj
    rw [hmap', List.filter_map, List.length_map]
    have hpe : ∀ i ∈ List.range N,
        (((fun e => e == (Except.ok (keys.getD j "") : Except String String)) ∘
          (fun i => Except.ok (keys.getD (i % keys.length) ""))) i) =
        decide (i % keys.length = j) := by
      intro i _
      simp only [Function.comp]
      by_cases hij : i % keys.length = j
      · simp [hij]
      · have hne : keys.getD (i % keys.length) "" ≠ keys.getD j "" := by
          rw [List.getD_eq_getElem _ _ (Nat.mod_lt _ hk),
            List.getD_eq_getElem _ _ hj]
          intro hcon
          have hinj : (⟨i % keys.length, Nat.mod_lt _ hk⟩ : Fin keys.length) = ⟨j, hj⟩ :=
            List.nodup_iff_injective_get.mp hnd
              (by simpa [List.get_eq_getElem] using hcon)
          exact hij (by simpa using congrArg Fin.val hinj)
        have hd : decide (i % keys.length = j) = false := by simp [hij]
        rw [hd]
        apply beq_eq_false_iff_ne.mpr
        intro hcon
        injection hcon with hcon'
        exact hne hcon'
    rw [List.filter_congr hpe, length_filter_range_mod keys.length j hk hj N]
    exact floor_or_ceil keys.length j N hk

/-- Witness for C2 at a concrete manager: faction `"100"` with the two
distinct keys `["a", "b"]` and `N = 5` calls. -/
theorem get_next_key_round_robin_witness :
    ((lookupA (APIKeyManager.mk [] [("100", ⟨["a", "b"], 0⟩)]).key_cycles "100" =
        some ⟨["a", "b"], 0⟩) ∧
      (["a", "b"] : List String).length = 2 ∧ 0 < 2 ∧
      (["a", "b"] : List String).Nodup) ∧
    ((∀ i, i < 5 →
        (callsFrom (APIKeyManager.mk [] [("100", ⟨["a", "b"], 0⟩)]) "100" 5).getD i
            (Except.error "") =
          Except.ok ((["a", "b"] : List String).getD (i % 2) "")) ∧
      (∀ e ∈ callsFrom (APIKeyManager.mk [] [("100", ⟨["a", "b"], 0⟩)]) "100" 5,
        e.isOk = true) ∧
      (∀ j, j < 2 →
        ((callsFrom (APIKeyManager.mk [] [("100", ⟨["a", "b"], 0⟩)]) "100" 5).filter
            (fun e => e == (Except.ok ((["a", "b"] : List String).getD j "") : Except String String))).length =
          5 / 2 ∨
        ((callsFrom (APIKeyManager.mk [] [("100", ⟨["a", "b"], 0⟩)]) "100" 5).filter
            (fun e => e == (Except.ok ((["a", "b"] : List String).getD j "") : Except String String))).length =
          (5 + 2 - 1) / 2)) :=
  ⟨⟨by decide, by decide, by decide, by decide⟩,
    get_next_key_round_robin (APIKeyManager.mk [] [("100", ⟨["a", "b"], 0⟩)])
      "100" ["a", "b"] 2 5 (by decide) (by decide) (by decide) (by decide)⟩

/-- C3: `get_next_key` on a faction id not present in `key_cycles` raises
`ValueError` on every one of `N` successive calls — it never returns a
credential. -/
theorem get_next_key_unregistered (m : APIKeyManager) (fid : String) (N : Nat)
    (h : lookupA m.key_cycles fid = none) :
    callsFrom m fid N =
      List.replicate N
        (Except.error ("ValueError: Faction ID " ++ fid ++ " not found in the keys file.")) :=
  callsFrom_of_lookup_none m fid N h

/-- Witness for C3: faction `"999"` is not registered in a manager that
only knows faction `"100"`; three successive calls all raise. -/
theorem get_next_key_unregistered_witness :
    (lookupA (APIKeyManager.mk [] [("100", ⟨["a", "b"], 0⟩)]).key_cycles "999" = none) ∧
    callsFrom (APIKeyManager.mk [] [("100", ⟨["a", "b"], 0⟩)]) "999" 3 =
      List.replicate 3
        (Except.error ("ValueError: Faction ID " ++ "999" ++ " not found in the keys file.")) :=
  ⟨by decide,
    get_next_key_unregistered (APIKeyManager.mk [] [("100", ⟨["a", "b"], 0⟩)])
      "999" 3 (by decide)⟩

/-! ## Store lemmas -/

theorem lookupA_append {β : Type} (l1 l2 : List (String × β)) (a : String) :
    lookupA (l1 ++ l2) a =
      match lookupA l1 a with
      | some v => some v
      | none => lookupA l2 a := by
  induction l1 with
  | nil => simp [lookupA]
  | cons p rest ih =>
    obtain ⟨k, v⟩ := p
    by_cases hk : k = a <;> simp [lookupA, hk, ih]

theorem lookupA_updateA_other {β : Type} (l : List (String × β)) (a x : String)
    (b : β) (hx : ¬ x = a) : lookupA (updateA l a b) x = lookupA l x := by
  induction l with
  | nil => simp [updateA]
  | cons p rest ih =>
    obtain ⟨k, v⟩ := p
    by_cases hk : k = a
    · subst hk
      have hkx : ¬ k = x := fun hh => hx hh.symm
      simp [updateA, lookupA, hkx]
    · simp [updateA, hk, lookupA, ih]

theorem lookupA_storeSet_self (s : List (String × ResultRecord)) (k : String)
    (v : ResultRecord) : lookupA (storeSet s k v) k = some v := by
  unfold storeSet
  by_cases h : (lookupA s k).isSome
  · obtain ⟨c, hc⟩ := Option.isSome_iff_exists.mp h
    simp [h]
    exact lookupA_updateA_self _ _ _ _ hc
  · simp [h, lookupA_append]
    have hn : lookupA s k = none := Option.not_isSome_iff_eq_none.mp h
    simp [hn, lookupA]

theorem lookupA_storeSet_other (s : List (String × ResultRecord)) (k x : String)
    (v : ResultRecord) (hx : ¬ x = k) :
    lookupA (storeSet s k v) x = lookupA s x := by
  unfold storeSet
  by_cases h : (lookupA s k).isSome
  · simp [h, lookupA_updateA_other _ _ _ _ hx]
  · have hkx : ¬ k = x := fun hh => hx hh.symm
    simp [h, lookupA_append, lookupA, hkx]
    cases lookupA s x <;> simp

theorem lookupA_storeSet_isSome (s : List (String × ResultRecord)) (k x : String)
    (v : ResultRecord) (h : (lookupA s x).isSome = true) :
    (lookupA (storeSet s k v) x).isSome = true := by
  by_cases hx : x = k
  · subst hx
    simp [lookupA_storeSet_self]
  · rwa [lookupA_storeSet_other _ _ _ _ hx]

theorem applyActions_isSome (acts : List Action) :
    ∀ (s : List (String × ResultRecord)) (x : String),
      (lookupA s x).isSome = true →
      (lookupA (applyActions s acts) x).isSome = true := by
  induction acts with
  | nil => intro s x h; simpa [applyActions] using h
  | cons a rest ih =>
    intro s x h
    cases a with
    | storeResult mid rec =>
      exact ih _ _ (lookupA_storeSet_isSome _ _ _ _ h)
    | httpGet b => exact ih _ _ h
    | sleepBackoff => exact ih _ _ h
    | requeue mid => exact ih _ _ h
    | taskDone => exact ih _ _ h
    | sleepPacing => exact ih _ _ h
    | storeStats mid st => exact ih _ _ h

theorem worker_store_isSome (faction_id faction_name : String)
    (members : List (String × String)) (env : String → Nat → Resp × Resp) :
    ∀ (fuel : Nat) (m : APIKeyManager) (queue : List String)
      (tries : String → Nat) (s : List (String × ResultRecord)) (x : String),
      (lookupA s x).isSome = true →
      (lookupA (fetch_personal_stats_worker faction_id faction_name members env
          fuel m queue tries s).1 x).isSome = true := by
  intro fuel
  induction fuel with
  | zero => intro m queue tries s x h; simpa [fetch_personal_stats_worker] using h
  | succ fuel ih =>
    intro m queue tries s x h
    cases queue with
    | nil => simpa [fetch_personal_stats_worker] using h
    | cons mid rest =>
      rw [fetch_personal_stats_worker]
      cases hkey : get_next_key m faction_id with
      | error e => simpa [hkey] using h
      | ok p =>
        simp only [hkey]
        exact ih _ _ _ _ _ (applyActions_isSome _ _ _ h)

/-! ## Claim theorems for loading -/

theorem buildCycles_eq_takeWhile (entries : List (String × FactionData)) :
    buildCycles entries =
      (entries.takeWhile (fun p => p.2.keys.isSome)).map
        (fun p => (p.1, ⟨p.2.keys.getD [], 0⟩)) := by
  induction entries with
  | nil => rfl
  | cons p rest ih =>
    obtain ⟨fid, d⟩ := p
    cases hd : d.keys with
    | none => simp [buildCycles, hd, List.takeWhile_cons]
    | some ks => simp [buildCycles, hd, List.takeWhile_cons, ih]

/-- C9 (amended): construction never raises — `load_keys` totally returns
a manager; when opening or parsing the file raises (`file = none`) both
dicts stay empty and every `get_next_key` call then raises `ValueError`;
when the file parses, the caught `KeyError` stops registration at the
first entry lacking `"keys"`, so exactly the longest well-formed prefix
of entries stays registered — not necessarily zero groups. -/
theorem load_keys_total_and_empty_on_failure (fid : String) (N : Nat)
    (entries : List (String × FactionData)) :
    (load_keys none).faction_keys = [] ∧
    (load_keys none).key_cycles = [] ∧
    callsFrom (load_keys none) fid N =
      List.replicate N
        (Except.error ("ValueError: Faction ID " ++ fid ++ " not found in the keys file.")) ∧
    (load_keys (some entries)).faction_keys = entries ∧
    (load_keys (some entries)).key_cycles =
      (entries.takeWhile (fun p => p.2.keys.isSome)).map
        (fun p => (p.1, ⟨p.2.keys.getD [], 0⟩)) :=
  ⟨rfl, rfl, callsFrom_of_lookup_none _ _ _ rfl, rfl, buildCycles_eq_takeWhile entries⟩

/-- C9 counterexample: a keys file whose first entry `"100"` is
well-formed and whose second entry `"200"` lacks the `"keys"` field makes
`_load_keys` fail partway; the `except` swallows the `KeyError`, but the
manager is left with faction `"100"` still registered — not zero groups —
and `get_next_key "100"` returns a credential instead of raising. -/
theorem load_keys_partial_failure_counterexample :
    (load_keys (some [("100", ⟨"FacA", some ["k1"]⟩), ("200", ⟨"FacB", none⟩)])).key_cycles =
      [("100", ⟨["k1"], 0⟩)] ∧
    get_next_key
        (load_keys (some [("100", ⟨"FacA", some ["k1"]⟩), ("200", ⟨"FacB", none⟩)])) "100" =
      Except.ok ("k1",
        ⟨[("100", ⟨"FacA", some ["k1"]⟩), ("200", ⟨"FacB", none⟩)],
          [("100", ⟨["k1"], 1⟩)]⟩) := by
  refine ⟨by decide, by decide⟩

/-! ## Claim theorems for the V2 worker -/

/-- C1 (amended): in `egg_hunt_V2.py` the metric stored on the success
path equals `max 0 (current_total - previous_total)`, and every record
stored on any path has a nonnegative metric; the report of `egg_hunt.py`,
by contrast, does not floor its difference (see the counterexample). -/
theorem current_year_value_floored (faction_name : String)
    (members : List (String × String)) (member_id : String) (b1 b2 : Body)
    (h1 : ¬ isRateLimited b1 = true) (h2 : ¬ isRateLimited b2 = true) :
    Action.storeResult member_id
        ⟨(lookupA members member_id).getD "Unknown", faction_name,
          max 0 (currentTotalOf b2 - previousTotalOf b1.stats), currentTotalOf b2⟩ ∈
      fetch_personal_stats_attempt faction_name members member_id
        (Resp.status 200 b1) (Resp.status 200 b2) ∧
    (∀ (r1 r2 : Resp) (rec : ResultRecord),
      Action.storeResult member_id rec ∈
        fetch_personal_stats_attempt faction_name members member_id r1 r2 →
      0 ≤ rec.current_year_value) := by
  constructor
  · simp [fetch_personal_stats_attempt, h1, h2]
  · intro r1 r2 rec hmem
    cases r1 with
    | exn => simp [fetch_personal_stats_attempt] at hmem
    | status c1 b1' =>
      by_cases hr1 : c1 = 200 ∧ isRateLimited b1' = true
      · simp [fetch_personal_stats_attempt, hr1] at hmem
      · cases r2 with
        | exn => simp [fetch_personal_stats_attempt, hr1] at hmem
        | status c2 b2' =>
          by_cases hr2 : c2 = 200 ∧ isRateLimited b2' = true
          · simp [fetch_personal_stats_attempt, hr1, hr2] at hmem
          · simp [fetch_personal_stats_attempt, hr1, hr2] at hmem
            rw [hmem]
            exact le_max_left 0 _

/-- Witness for C1 at concrete bodies: reference total 2, current total 5,
stored metric `max 0 (5 - 2) = 3`. -/
theorem current_year_value_floored_witness :
    (¬ isRateLimited ⟨none, [("eastereggsfound", 2)], none⟩ = true ∧
      ¬ isRateLimited ⟨none, [], some 5⟩ = true) ∧
    (Action.storeResult "1"
        ⟨(lookupA [("1", "Alice")] "1").getD "Unknown", "FacA",
          max 0 (currentTotalOf ⟨none, [], some 5⟩ -
            previousTotalOf (Body.mk none [("eastereggsfound", 2)] none).stats),
          currentTotalOf ⟨none, [], some 5⟩⟩ ∈
      fetch_personal_stats_attempt "FacA" [("1", "Alice")] "1"
        (Resp.status 200 ⟨none, [("eastereggsfound", 2)], none⟩)
        (Resp.status 200 ⟨none, [], some 5⟩)) ∧
    (∀ (r1 r2 : Resp) (rec : ResultRecord),
      Action.storeResult "1" rec ∈
        fetch_personal_stats_attempt "FacA" [("1", "Alice")] "1" r1 r2 →
      0 ≤ rec.current_year_value) :=
  ⟨⟨by decide, by decide⟩,
    current_year_value_floored "FacA" [("1", "Alice")] "1"
      ⟨none, [("eastereggsfound", 2)], none⟩ ⟨none, [], some 5⟩
      (by decide) (by decide)⟩

/-- C4 (amended): whichever call returns a non-200 status has its total
defaulted to 0 and the item still lands in the result store under its
key, with no retry — conjunct 1: first call non-200 (whatever its body),
second call succeeds, `previous_total` defaults to 0; conjunct 2: first
call succeeds, second non-200, `current_total` (hence `all_time_total`)
defaults to 0; conjunct 3: both non-200, all-zero record. A network
exception instead stores nothing: a raising first call (conjunct 4, any
second response) or a raising second call (conjunct 5) leaves the store
unchanged, again with no retry. In V1 a non-200 or raising call stores
nothing at all (conjuncts 6–7). -/
theorem transport_failure_defaults (faction_name : String)
    (members : List (String × String)) (member_id : String)
    (c1 c2 c3 : Nat) (b1 b2 bx bz : Body) (st : V1Stats)
    (s : List (String × ResultRecord)) (r2' : Resp)
    (h1 : ¬ c1 = 200) (h2 : ¬ c2 = 200)
    (hg1 : ¬ isRateLimited b1 = true) (hg2 : ¬ isRateLimited b2 = true)
    (h3 : ¬ c3 = 200) :
    (fetch_personal_stats_attempt faction_name members member_id
        (Resp.status c1 bx) (Resp.status 200 b2) =
      [Action.httpGet true, Action.httpGet false,
        Action.storeResult member_id
          ⟨(lookupA members member_id).getD "Unknown", faction_name,
            max 0 (currentTotalOf b2 - 0), currentTotalOf b2⟩,
        Action.taskDone, Action.sleepPacing] ∧
      lookupA (applyActions s
          (fetch_personal_stats_attempt faction_name members member_id
            (Resp.status c1 bx) (Resp.status 200 b2))) member_id =
        some ⟨(lookupA members member_id).getD "Unknown", faction_name,
          max 0 (currentTotalOf b2 - 0), currentTotalOf b2⟩ ∧
      Action.requeue member_id ∉
        fetch_personal_stats_attempt faction_name members member_id
          (Resp.status c1 bx) (Resp.status 200 b2)) ∧
    (fetch_personal_stats_attempt faction_name members member_id
        (Resp.status 200 b1) (Resp.status c2 bz) =
      [Action.httpGet true, Action.httpGet false,
        Action.storeResult member_id
          ⟨(lookupA members member_id).getD "Unknown", faction_name,
            max 0 (0 - previousTotalOf b1.stats), 0⟩,
        Action.taskDone, Action.sleepPacing] ∧
      lookupA (applyActions s
          (fetch_personal_stats_attempt faction_name members member_id
            (Resp.status 200 b1) (Resp.status c2 bz))) member_id =
        some ⟨(lookupA members member_id).getD "Unknown", faction_name,
          max 0 (0 - previousTotalOf b1.stats), 0⟩ ∧
      Action.requeue member_id ∉
        fetch_personal_stats_attempt faction_name members member_id
          (Resp.status 200 b1) (Resp.status c2 bz)) ∧
    (fetch_personal_stats_attempt faction_name members member_id
        (Resp.status c1 bx) (Resp.status c2 bz) =
      [Action.httpGet true, Action.httpGet false,
        Action.storeResult member_id
          ⟨(lookupA members member_id).getD "Unknown", faction_name, 0, 0⟩,
        Action.taskDone, Action.sleepPacing] ∧
      lookupA (applyActions s
          (fetch_personal_stats_attempt faction_name members member_id
            (Resp.status c1 bx) (Resp.status c2 bz))) member_id =
        some ⟨(lookupA members member_id).getD "Unknown", faction_name, 0, 0⟩ ∧
      Action.requeue member_id ∉
        fetch_personal_stats_attempt faction_name members member_id
          (Resp.status c1 bx) (Resp.status c2 bz)) ∧
    (applyActions s
        (fetch_personal_stats_attempt faction_name members member_id
          Resp.exn r2') = s ∧
      Action.requeue member_id ∉
        fetch_personal_stats_attempt faction_name members member_id Resp.exn r2') ∧
    (fetch_personal_stats_attempt faction_name members member_id
        (Resp.status 200 b1) Resp.exn =
      [Action.httpGet true, Action.httpGet false, Action.taskDone,
        Action.sleepPacing] ∧
      applyActions s
          (fetch_personal_stats_attempt faction_name members member_id
            (Resp.status 200 b1) Resp.exn) = s ∧
      Action.requeue member_id ∉
        fetch_personal_stats_attempt faction_name members member_id
          (Resp.status 200 b1) Resp.exn) ∧
    (∀ v : V1Stats, Action.storeStats member_id v ∉
      fetch_personal_stats_attempt_V1 member_id (RespV1.status c3 st)) ∧
    (∀ v : V1Stats, Action.storeStats member_id v ∉
      fetch_personal_stats_attempt_V1 member_id RespV1.exn) := by
  have hA : fetch_personal_stats_attempt faction_name members member_id
      (Resp.status c1 bx) (Resp.status 200 b2) =
    [Action.httpGet true, Action.httpGet false,
      Action.storeResult member_id
        ⟨(lookupA members member_id).getD "Unknown", faction_name,
          max 0 (currentTotalOf b2 - 0), currentTotalOf b2⟩,
      Action.taskDone, Action.sleepPacing] := by
    simp [fetch_personal_stats_attempt, h1, hg2]
  have hB : fetch_personal_stats_attempt faction_name members member_id
      (Resp.status 200 b1) (Resp.status c2 bz) =
    [Action.httpGet true, Action.httpGet false,
      Action.storeResult member_id
        ⟨(lookupA members member_id).getD "Unknown", faction_name,
          max 0 (0 - previousTotalOf b1.stats), 0⟩,
      Action.taskDone, Action.sleepPacing] := by
    simp [fetch_personal_stats_attempt, hg1, h2]
  have hC : fetch_personal_stats_attempt faction_name members member_id
      (Resp.status c1 bx) (Resp.status c2 bz) =
    [Action.httpGet true, Action.httpGet false,
      Action.storeResult member_id
        ⟨(lookupA members member_id).getD "Unknown", faction_name, 0, 0⟩,
      Action.taskDone, Action.sleepPacing] := by
    simp [fetch_personal_stats_attempt, h1, h2]
  have hE : fetch_personal_stats_attempt faction_name members member_id
      (Resp.status 200 b1) Resp.exn =
    [Action.httpGet true, Action.httpGet false, Action.taskDone,
      Action.sleepPacing] := by
    simp [fetch_personal_stats_attempt, hg1]
  refine ⟨⟨hA, ?_, ?_⟩, ⟨hB, ?_, ?_⟩, ⟨hC, ?_, ?_⟩, ⟨?_, ?_⟩, ⟨hE, ?_, ?_⟩, ?_, ?_⟩
  · rw [hA]
    simp [applyActions, lookupA_storeSet_self]
  · rw [hA]
    simp
  · rw [hB]
    simp [applyActions, lookupA_storeSet_self]
  · rw [hB]
    simp
  · rw [hC]
    simp [applyActions, lookupA_storeSet_self]
  · rw [hC]
    simp
  · simp [fetch_personal_stats_attempt, applyActions]
  · simp [fetch_personal_stats_attempt]
  · rw [hE]
    simp [applyActions]
  · rw [hE]
    simp
  · intro v
    simp [fetch_personal_stats_attempt_V1, h3]
  · intro v
    simp [fetch_personal_stats_attempt_V1]

/-- Witness for C4 at member `"1"`: status 500 on the first call (with a
body the code never reads), 404 on the second, both failing, a raising
first call and a raising second call, plus the V1 cases. -/
theorem transport_failure_defaults_witness :
    (¬ 500 = 200 ∧ ¬ 404 = 200 ∧
      ¬ isRateLimited ⟨none, [("eastereggsfound", 2)], none⟩ = true ∧
      ¬ isRateLimited ⟨none, [], some 7⟩ = true) ∧
    ((fetch_personal_stats_attempt "FacA" [("1", "Alice")] "1"
        (Resp.status 500 ⟨some 5, [], none⟩) (Resp.status 200 ⟨none, [], some 7⟩) =
      [Action.httpGet true, Action.httpGet false,
        Action.storeResult "1"
          ⟨(lookupA [("1", "Alice")] "1").getD "Unknown", "FacA",
            max 0 (currentTotalOf ⟨none, [], some 7⟩ - 0),
            currentTotalOf ⟨none, [], some 7⟩⟩,
        Action.taskDone, Action.sleepPacing] ∧
      lookupA (applyActions []
          (fetch_personal_stats_attempt "FacA" [("1", "Alice")] "1"
            (Resp.status 500 ⟨some 5, [], none⟩)
            (Resp.status 200 ⟨none, [], some 7⟩))) "1" =
        some ⟨(lookupA [("1", "Alice")] "1").getD "Unknown", "FacA",
          max 0 (currentTotalOf ⟨none, [], some 7⟩ - 0),
          currentTotalOf ⟨none, [], some 7⟩⟩ ∧
      Action.requeue "1" ∉
        fetch_personal_stats_attempt "FacA" [("1", "Alice")] "1"
          (Resp.status 500 ⟨some 5, [], none⟩)
          (Resp.status 200 ⟨none, [], some 7⟩)) ∧
    (fetch_personal_stats_attempt "FacA" [("1", "Alice")] "1"
        (Resp.status 200 ⟨none, [("eastereggsfound", 2)], none⟩)
        (Resp.status 404 ⟨none, [], none⟩) =
      [Action.httpGet true, Action.httpGet false,
        Action.storeResult "1"
          ⟨(lookupA [("1", "Alice")] "1").getD "Unknown", "FacA",
            max 0 (0 - previousTotalOf
              (Body.mk none [("eastereggsfound", 2)] none).stats), 0⟩,
        Action.taskDone, Action.sleepPacing] ∧
      lookupA (applyActions []
          (fetch_personal_stats_attempt "FacA" [("1", "Alice")] "1"
            (Resp.status 200 ⟨none, [("eastereggsfound", 2)], none⟩)
            (Resp.status 404 ⟨none, [], none⟩))) "1" =
        some ⟨(lookupA [("1", "Alice")] "1").getD "Unknown", "FacA",
          max 0 (0 - previousTotalOf
            (Body.mk none [("eastereggsfound", 2)] none).stats), 0⟩ ∧
      Action.requeue "1" ∉
        fetch_personal_stats_attempt "FacA" [("1", "Alice")] "1"
          (Resp.status 200 ⟨none, [("eastereggsfound", 2)], none⟩)
          (Resp.status 404 ⟨none, [], none⟩)) ∧
    (fetch_personal_stats_attempt "FacA" [("1", "Alice")] "1"
        (Resp.status 500 ⟨some 5, [], none⟩) (Resp.status 404 ⟨none, [], none⟩) =
      [Action.httpGet true, Action.httpGet false,
        Action.storeResult "1"
          ⟨(lookupA [("1", "Alice")] "1").getD "Unknown", "FacA", 0, 0⟩,
        Action.taskDone, Action.sleepPacing] ∧
      lookupA (applyActions []
          (fetch_personal_stats_attempt "FacA" [("1", "Alice")] "1"
            (Resp.status 500 ⟨some 5, [], none⟩)
            (Resp.status 404 ⟨none, [], none⟩))) "1" =
        some ⟨(lookupA [("1", "Alice")] "1").getD "Unknown", "FacA", 0, 0⟩ ∧
      Action.requeue "1" ∉
        fetch_personal_stats_attempt "FacA" [("1", "Alice")] "1"
          (Resp.status 500 ⟨some 5, [], none⟩)
          (Resp.status 404 ⟨none, [], none⟩)) ∧
    (applyActions []
        (fetch_personal_stats_attempt "FacA" [("1", "Alice")] "1"
          Resp.exn (Resp.status 200 ⟨none, [], some 7⟩)) = [] ∧
      Action.requeue "1" ∉
        fetch_personal_stats_attempt "FacA" [("1", "Alice")] "1"
          Resp.exn (Resp.status 200 ⟨none, [], some 7⟩)) ∧
    (fetch_personal_stats_attempt "FacA" [("1", "Alice")] "1"
        (Resp.status 200 ⟨none, [("eastereggsfound", 2)], none⟩) Resp.exn =
      [Action.httpGet true, Action.httpGet false, Action.taskDone,
        Action.sleepPacing] ∧
      applyActions []
          (fetch_personal_stats_attempt "FacA" [("1", "Alice")] "1"
            (Resp.status 200 ⟨none, [("eastereggsfound", 2)], none⟩)
            Resp.exn) = [] ∧
      Action.requeue "1" ∉
        fetch_personal_stats_attempt "FacA" [("1", "Alice")] "1"
          (Resp.status 200 ⟨none, [("eastereggsfound", 2)], none⟩) Resp.exn) ∧
    (∀ v : V1Stats, Action.storeStats "1" v ∉
      fetch_personal_stats_attempt_V1 "1" (RespV1.status 500 ⟨some 9⟩)) ∧
    (∀ v : V1Stats, Action.storeStats "1" v ∉
      fetch_personal_stats_attempt_V1 "1" RespV1.exn)) :=
  ⟨⟨by decide, by decide, by decide, by decide⟩,
    transport_failure_defaults "FacA" [("1", "Alice")] "1" 500 404 500
      ⟨none, [("eastereggsfound", 2)], none⟩ ⟨none, [], some 7⟩
      ⟨some 5, [], none⟩ ⟨none, [], none⟩ ⟨some 9⟩ []
      (Resp.status 200 ⟨none, [], some 7⟩)
      (by decide) (by decide) (by decide) (by decide) (by decide)⟩

/-- C4 counterexample: a network exception on the first call (a
transport-level failure per the claim) yields a log-only trace and leaves
the result store empty — the item does not appear in the result store,
contrary to the claim. -/
theorem transport_exception_drops_item_counterexample :
    fetch_personal_stats_attempt "FacA" [("1", "Alice")] "1" Resp.exn
        (Resp.status 200 ⟨none, [], some 7⟩) =
      [Action.httpGet true, Action.taskDone, Action.sleepPacing] ∧
    applyActions [] (fetch_personal_stats_attempt "FacA" [("1", "Alice")] "1" Resp.exn
        (Resp.status 200 ⟨none, [], some 7⟩)) = [] :=
  ⟨by decide, by decide⟩

/-- C6: every attempt — success, transport failure, caught exception, or
rate-limit re-enqueue — runs `member_queue.task_done()` exactly once: the
`finally` block fires on the `continue` path too. -/
theorem task_done_exactly_once (faction_name : String)
    (members : List (String × String)) (member_id : String) (r1 r2 : Resp) :
    (fetch_personal_stats_attempt faction_name members member_id r1 r2).count
        Action.taskDone = 1 := by
  cases r1 with
  | exn => simp [fetch_personal_stats_attempt]
  | status c1 b1 =>
    by_cases hr1 : c1 = 200 ∧ isRateLimited b1 = true
    · simp [fetch_personal_stats_attempt, hr1]
    · cases r2 with
      | exn => simp [fetch_personal_stats_attempt, hr1]
      | status c2 b2 =>
        by_cases hr2 : c2 = 200 ∧ isRateLimited b2 = true
        · simp [fetch_personal_stats_attempt, hr1, hr2]
        · simp [fetch_personal_stats_attempt, hr1, hr2]

/-- C8 (amended): every attempt either re-enqueues — then it sleeps the
60s backoff but the `continue` skips the pacing sleep — or it does not,
and then its last action before the next dequeue is the pacing sleep; the
V1 worker, which has no requeue path, always ends with the pacing
sleep. -/
theorem pacing_sleep_except_requeue (faction_name : String)
    (members : List (String × String)) (member_id : String) (r1 r2 : Resp)
    (r : RespV1) :
    ((Action.requeue member_id ∈
        fetch_personal_stats_attempt faction_name members member_id r1 r2 ∧
      Action.sleepBackoff ∈
        fetch_personal_stats_attempt faction_name members member_id r1 r2 ∧
      Action.sleepPacing ∉
        fetch_personal_stats_attempt faction_name members member_id r1 r2) ∨
     (Action.requeue member_id ∉
        fetch_personal_stats_attempt faction_name members member_id r1 r2 ∧
      (fetch_personal_stats_attempt faction_name members member_id r1 r2).getLast? =
        some Action.sleepPacing)) ∧
    (fetch_personal_stats_attempt_V1 member_id r).getLast? =
      some Action.sleepPacing := by
  constructor
  · cases r1 with
    | exn =>
      right
      constructor
      · simp [fetch_personal_stats_attempt]
      · rfl
    | status c1 b1 =>
      by_cases hr1 : c1 = 200 ∧ isRateLimited b1 = true
      · left
        refine ⟨?_, ?_, ?_⟩ <;> simp [fetch_personal_stats_attempt, hr1]
      · cases r2 with
        | exn =>
          right
          constructor
          · simp [fetch_personal_stats_attempt, hr1]
          · simp [fetch_personal_stats_attempt, hr1, List.getLast?]
        | status c2 b2 =>
          by_cases hr2 : c2 = 200 ∧ isRateLimited b2 = true
          · left
            refine ⟨?_, ?_, ?_⟩ <;> simp [fetch_personal_stats_attempt, hr1, hr2]
          · right
            constructor
            · simp [fetch_personal_stats_attempt, hr1, hr2]
            · simp [fetch_personal_stats_attempt, hr1, hr2, List.getLast?]
  · cases r with
    | exn => rfl
    | status c stv =>
      by_cases hc : c = 200 <;> simp [fetch_personal_stats_attempt_V1, hc, List.getLast?]

/-- C8 counterexample: with a rate-limited first response the attempt's
trace is exactly backoff, requeue, ack — it contains no pacing sleep, so
the worker does not sleep the pacing delay after a rate-limited item. -/
theorem rate_limit_skips_pacing_counterexample :
    fetch_personal_stats_attempt "FacA" [("1", "Alice")] "1"
        (Resp.status 200 ⟨some 5, [], none⟩) (Resp.status 200 ⟨none, [], some 1⟩) =
      [Action.httpGet true, Action.sleepBackoff, Action.requeue "1", Action.taskDone] ∧
    Action.sleepPacing ∉
      fetch_personal_stats_attempt "FacA" [("1", "Alice")] "1"
        (Resp.status 200 ⟨some 5, [], none⟩) (Resp.status 200 ⟨none, [], some 1⟩) :=
  ⟨by decide, by decide⟩

theorem worker_step_registered (faction_id faction_name : String)
    (members : List (String × String)) (env : String → Nat → Resp × Resp)
    (fuel : Nat) (m : APIKeyManager) (keys : List String) (idx : Nat)
    (hreg : lookupA m.key_cycles faction_id = some ⟨keys, idx⟩)
    (hk : 0 < keys.length) (mid : String) (rest : List String)
    (tries : String → Nat) (s : List (String × ResultRecord)) :
    fetch_personal_stats_worker faction_id faction_name members env
        (fuel + 1) m (mid :: rest) tries s =
      (let acts := fetch_personal_stats_attempt faction_name members mid
          (env mid (tries mid)).1 (env mid (tries mid)).2
      let tries2 : String → Nat := fun x => if x = mid then tries x + 1 else tries x
      let queue2 := if Action.requeue mid ∈ acts then rest ++ [mid] else rest
      let res := fetch_personal_stats_worker faction_id faction_name members env
        fuel ⟨m.faction_keys, updateA m.key_cycles faction_id ⟨keys, idx + 1⟩⟩
        queue2 tries2 (applyActions s acts)
      (res.1, acts ++ res.2)) := by
  rw [fetch_personal_stats_worker, get_next_key_registered m faction_id keys idx hk hreg]

theorem worker_all_fail_stores (faction_id faction_name : String)
    (members : List (String × String)) (env : String → Nat → Resp × Resp)
    (henv : ∀ x n, ∃ c1 b1 c2 b2,
      env x n = (Resp.status c1 b1, Resp.status c2 b2) ∧ ¬ c1 = 200 ∧ ¬ c2 = 200)
    (keys : List String) (hk : 0 < keys.length) :
    ∀ (queue : List String) (m : APIKeyManager) (idx : Nat),
      lookupA m.key_cycles faction_id = some ⟨keys, idx⟩ →
      ∀ (tries : String → Nat) (s : List (String × ResultRecord)) (mid : String),
        mid ∈ queue →
        (lookupA (fetch_personal_stats_worker faction_id faction_name members env
            queue.length m queue tries s).1 mid).isSome = true := by
  intro queue
  induction queue with
  | nil =>
    intro m idx hreg tries s mid hmem
    simp at hmem
  | cons mid0 rest ih =>
    intro m idx hreg tries s mid hmem
    obtain ⟨c1, b1, c2, b2, henv0, h1, h2⟩ := henv mid0 (tries mid0)
    have hacts : fetch_personal_stats_attempt faction_name members mid0
        (env mid0 (tries mid0)).1 (env mid0 (tries mid0)).2 =
      [Action.httpGet true, Action.httpGet false,
        Action.storeResult mid0
          ⟨(lookupA members mid0).getD "Unknown", faction_name, 0, 0⟩,
        Action.taskDone, Action.sleepPacing] := by
      rw [henv0]
      simp [fetch_personal_stats_attempt, h1, h2]
    rw [List.length_cons,
      worker_step_registered faction_id faction_name members env rest.length
        m keys idx hreg hk mid0 rest tries s]
    simp only [hacts]
    have hnotin : ¬ (Action.requeue mid0 ∈
        [Action.httpGet true, Action.httpGet false,
          Action.storeResult mid0
            ⟨(lookupA members mid0).getD "Unknown", faction_name, 0, 0⟩,
          Action.taskDone, Action.sleepPacing]) := by simp
    simp only [if_neg hnotin, applyActions]
    have hm2 : lookupA (updateA m.key_cycles faction_id ⟨keys, idx + 1⟩) faction_id =
        some ⟨keys, idx + 1⟩ := lookupA_updateA_self _ _ _ _ hreg
    rcases List.mem_cons.mp hmem with hme | hmr
    · subst hme
      apply worker_store_isSome
      simp [lookupA_storeSet_self]
    · exact ih ⟨m.faction_keys, updateA m.key_cycles faction_id ⟨keys, idx + 1⟩⟩
        (idx + 1) hm2 _ _ mid hmr

/-- C5: a response carrying the rate-limit error code 5 makes the worker
sleep the 60s backoff, re-enqueue the member unchanged, ack, and abandon
the attempt with nothing stored (conjuncts 1–2: first call rate-limited;
conjuncts 3–4: second call rate-limited, discarding the already-fetched
`previous_total`); and once the rate limit clears the member is processed
again: one rate-limited attempt followed by a success leaves the member's
success record in the result store (conjunct 5). -/
theorem rate_limit_requeues_then_succeeds (m : APIKeyManager)
    (faction_id faction_name : String) (members : List (String × String))
    (member_id : String) (keys : List String) (idx : Nat)
    (brl bp bq : Body) (rx : Resp) (s : List (String × ResultRecord))
    (hreg : lookupA m.key_cycles faction_id = some ⟨keys, idx⟩)
    (hk : 0 < keys.length)
    (hrl : isRateLimited brl = true)
    (hp : ¬ isRateLimited bp = true) (hq : ¬ isRateLimited bq = true) :
    fetch_personal_stats_attempt faction_name members member_id
        (Resp.status 200 brl) rx =
      [Action.httpGet true, Action.sleepBackoff, Action.requeue member_id,
        Action.taskDone] ∧
    applyActions s (fetch_personal_stats_attempt faction_name members member_id
        (Resp.status 200 brl) rx) = s ∧
    fetch_personal_stats_attempt faction_name members member_id
        (Resp.status 200 bp) (Resp.status 200 brl) =
      [Action.httpGet true, Action.httpGet false, Action.sleepBackoff,
        Action.requeue member_id, Action.taskDone] ∧
    applyActions s (fetch_personal_stats_attempt faction_name members member_id
        (Resp.status 200 bp) (Resp.status 200 brl)) = s ∧
    (∀ env : String → Nat → Resp × Resp,
      env member_id 0 = (Resp.status 200 brl, rx) →
      env member_id 1 = (Resp.status 200 bp, Resp.status 200 bq) →
      (fetch_personal_stats_worker faction_id faction_name members env
          2 m [member_id] (fun _ => 0) []).1 =
        [(member_id,
          ⟨(lookupA members member_id).getD "Unknown", faction_name,
            max 0 (currentTotalOf bq - previousTotalOf bp.stats),
            currentTotalOf bq⟩)]) := by
  have h1 : fetch_personal_stats_attempt faction_name members member_id
      (Resp.status 200 brl) rx =
    [Action.httpGet true, Action.sleepBackoff, Action.requeue member_id,
      Action.taskDone] := by
    simp [fetch_personal_stats_attempt, hrl]
  have h3 : fetch_personal_stats_attempt faction_name members member_id
      (Resp.status 200 bp) (Resp.status 200 brl) =
    [Action.httpGet true, Action.httpGet false, Action.sleepBackoff,
      Action.requeue member_id, Action.taskDone] := by
    simp [fetch_personal_stats_attempt, hp, hrl]
  have h5 : fetch_personal_stats_attempt faction_name members member_id
      (Resp.status 200 bp) (Resp.status 200 bq) =
    [Action.httpGet true, Action.httpGet false,
      Action.storeResult member_id
        ⟨(lookupA members member_id).getD "Unknown", faction_name,
          max 0 (currentTotalOf bq - previousTotalOf bp.stats), currentTotalOf bq⟩,
      Action.taskDone, Action.sleepPacing] := by
    simp [fetch_personal_stats_attempt, hp, hq]
  refine ⟨h1, by rw [h1]; simp [applyActions], h3, by rw [h3]; simp [applyActions], ?_⟩
  intro env henv0 henv1
  have hm2 : lookupA (updateA m.key_cycles faction_id ⟨keys, idx + 1⟩) faction_id =
      some ⟨keys, idx + 1⟩ := lookupA_updateA_self _ _ _ _ hreg
  rw [show (2 : Nat) = 1 + 1 from rfl,
    worker_step_registered faction_id faction_name members env 1 m keys idx hreg hk
      member_id [] (fun _ => 0) []]
  dsimp only
  rw [henv0]
  dsimp only
  rw [h1]
  have hin : Action.requeue member_id ∈
      [Action.httpGet true, Action.sleepBackoff, Action.requeue member_id,
        Action.taskDone] := by simp
  rw [if_pos hin]
  simp only [applyActions, List.nil_append]
  rw [show (1 : Nat) = 0 + 1 from rfl,
    worker_step_registered faction_id faction_name members env 0
      ⟨m.faction_keys, updateA m.key_cycles faction_id ⟨keys, idx + 1⟩⟩ keys (idx + 1)
      hm2 hk member_id [] _ []]
  dsimp only
  rw [if_pos rfl]
  simp only [Nat.zero_add]
  rw [henv1]
  dsimp only
  rw [h5]
  have hnotin2 : ¬ (Action.requeue member_id ∈
      [Action.httpGet true, Action.httpGet false,
        Action.storeResult member_id
          ⟨(lookupA members member_id).getD "Unknown", faction_name,
            max 0 (currentTotalOf bq - previousTotalOf bp.stats), currentTotalOf bq⟩,
        Action.taskDone, Action.sleepPacing]) := by simp
  simp only [if_neg hnotin2]
  simp [fetch_personal_stats_worker, applyActions, storeSet, lookupA]

/-- Witness for C5: member `"1"` of faction `"100"` is rate-limited once
(error code 5) and then succeeds with reference total 1 and current total
3; its record with metric `max 0 (3 - 1)` ends up in the store. -/
theorem rate_limit_requeues_then_succeeds_witness :
    (lookupA (APIKeyManager.mk [] [("100", ⟨["k"], 0⟩)]).key_cycles "100" =
        some ⟨["k"], 0⟩ ∧
      0 < (["k"] : List String).length ∧
      isRateLimited ⟨some 5, [], none⟩ = true ∧
      ¬ isRateLimited ⟨none, [("eastereggsfound", 1)], none⟩ = true ∧
      ¬ isRateLimited ⟨none, [], some 3⟩ = true) ∧
    (fetch_personal_stats_worker "100" "FacA" [("1", "Alice")]
        (fun _ n => if n = 0
          then (Resp.status 200 ⟨some 5, [], none⟩, Resp.exn)
          else (Resp.status 200 ⟨none, [("eastereggsfound", 1)], none⟩,
            Resp.status 200 ⟨none, [], some 3⟩))
        2 (APIKeyManager.mk [] [("100", ⟨["k"], 0⟩)]) ["1"] (fun _ => 0) []).1 =
      [("1",
        ⟨(lookupA [("1", "Alice")] "1").getD "Unknown", "FacA",
          max 0 (currentTotalOf ⟨none, [], some 3⟩ -
            previousTotalOf (Body.mk none [("eastereggsfound", 1)] none).stats),
          currentTotalOf ⟨none, [], some 3⟩⟩)] :=
  ⟨⟨by decide, by decide, by decide, by decide, by decide⟩,
    (rate_limit_requeues_then_succeeds (APIKeyManager.mk [] [("100", ⟨["k"], 0⟩)])
      "100" "FacA" [("1", "Alice")] "1" ["k"] 0
      ⟨some 5, [], none⟩ ⟨none, [("eastereggsfound", 1)], none⟩ ⟨none, [], some 3⟩
      Resp.exn [] (by decide) (by decide) (by decide) (by decide) (by decide)).2.2.2.2
      (fun _ n => if n = 0
        then (Resp.status 200 ⟨some 5, [], none⟩, Resp.exn)
        else (Resp.status 200 ⟨none, [("eastereggsfound", 1)], none⟩,
          Resp.status 200 ⟨none, [], some 3⟩))
      rfl rfl⟩

/-- C7: with the faction registered — which the orchestrator guarantees,
since `fetch_faction_members` itself calls `get_next_key` (and would have
raised) before any worker is spawned — no per-item failure escapes the
worker: every iteration returns an action trace rather than propagating,
for every combination of transport outcomes (conjunct 1); and a run over
any queue in which every fetch fails at the transport level still
completes, with every queued member present in the result store with
defaulted fields (conjunct 2). -/
theorem worker_contains_failures (m : APIKeyManager)
    (faction_id faction_name : String) (members : List (String × String))
    (keys : List String) (idx : Nat)
    (hreg : lookupA m.key_cycles faction_id = some ⟨keys, idx⟩)
    (hk : 0 < keys.length) :
    (∀ (member_id : String) (r1 r2 : Resp),
      (fetch_personal_stats_step m faction_id faction_name members
        member_id r1 r2).isOk = true) ∧
    (∀ env : String → Nat → Resp × Resp,
      (∀ x n, ∃ c1 b1 c2 b2,
        env x n = (Resp.status c1 b1, Resp.status c2 b2) ∧ ¬ c1 = 200 ∧ ¬ c2 = 200) →
      ∀ (queue : List String) (tries : String → Nat)
        (s : List (String × ResultRecord)) (mid : String), mid ∈ queue →
        (lookupA (fetch_personal_stats_worker faction_id faction_name members env
            queue.length m queue tries s).1 mid).isSome = true) := by
  constructor
  · intro member_id r1 r2
    simp [fetch_personal_stats_step,
      get_next_key_registered m faction_id keys idx hk hreg, Except.isOk,
      Except.toBool]
  · intro env henv queue tries s mid hmem
    exact worker_all_fail_stores faction_id faction_name members env henv keys hk
      queue m idx hreg tries s mid hmem

/-- Witness for C7: a two-member queue whose fetches all return status
500 still completes with member `"2"` recorded, and a step whose requests
raise does not propagate. -/
theorem worker_contains_failures_witness :
    (lookupA (APIKeyManager.mk [] [("100", ⟨["k"], 0⟩)]).key_cycles "100" =
        some ⟨["k"], 0⟩ ∧ 0 < (["k"] : List String).length) ∧
    (fetch_personal_stats_step (APIKeyManager.mk [] [("100", ⟨["k"], 0⟩)])
        "100" "FacA" [("1", "Alice"), ("2", "Bob")] "1" Resp.exn Resp.exn).isOk = true ∧
    (lookupA (fetch_personal_stats_worker "100" "FacA" [("1", "Alice"), ("2", "Bob")]
        (fun _ _ => (Resp.status 500 ⟨none, [], none⟩, Resp.status 500 ⟨none, [], none⟩))
        (["1", "2"] : List String).length (APIKeyManager.mk [] [("100", ⟨["k"], 0⟩)])
        ["1", "2"] (fun _ => 0) []).1 "2").isSome = true :=
  ⟨⟨by decide, by decide⟩,
    (worker_contains_failures (APIKeyManager.mk [] [("100", ⟨["k"], 0⟩)]) "100" "FacA"
      [("1", "Alice"), ("2", "Bob")] ["k"] 0 (by decide) (by decide)).1
      "1" Resp.exn Resp.exn,
    (worker_contains_failures (APIKeyManager.mk [] [("100", ⟨["k"], 0⟩)]) "100" "FacA"
      [("1", "Alice"), ("2", "Bob")] ["k"] 0 (by decide) (by decide)).2
      (fun _ _ => (Resp.status 500 ⟨none, [], none⟩, Resp.status 500 ⟨none, [], none⟩))
      (fun _ _ => ⟨500, ⟨none, [], none⟩, 500, ⟨none, [], none⟩, rfl, by decide, by decide⟩)
      ["1", "2"] (fun _ => 0) [] "2" (by decide)⟩

/-! ## Claim theorems for the V1 report -/

theorem lookupA_filter_isSome {β : Type} (o : List (String × β))
    (n : List (String × β)) (k : String) (hks : (lookupA o k).isSome = true) :
    lookupA (n.filter (fun q => (lookupA o q.1).isSome)) k = lookupA n k := by
  induction n with
  | nil => simp
  | cons p rest ih =>
    obtain ⟨k', v⟩ := p
    by_cases hk : k' = k
    · subst hk
      simp [List.filter_cons, hks, lookupA]
    · by_cases hf : (lookupA o k').isSome = true
      · simp [List.filter_cons, hf, lookupA, hk, ih]
      · simp [List.filter_cons, hf, lookupA, hk, ih]

theorem lookupA_isSome_of_mem {β : Type} (l : List (String × β)) (k : String)
    (v : β) (h : (k, v) ∈ l) : (lookupA l k).isSome = true := by
  induction l with
  | nil => simp at h
  | cons p rest ih =>
    obtain ⟨k', v'⟩ := p
    by_cases hk : k' = k
    · simp [lookupA, hk]
    · simp only [lookupA, if_neg hk]
      rcases List.mem_cons.mp h with he | ht
      · exact absurd (congrArg Prod.fst he).symm hk
      · exact ih ht

/-- C10: the V1 report iterates over the reference snapshot's keys only —
the output has exactly one row per reference-snapshot member, in order
(conjuncts 1–2); entries of the freshly fetched data whose member is
absent from the reference snapshot never influence the output (conjunct
3: filtering them away changes nothing); and the descending sort used for
the CSV/Discord output only permutes these rows (conjunct 4). -/
theorem egg_differences_reference_only (o n : List (String × V1Stats))
    (names : List (String × String)) :
    (egg_differences o n names).length = o.length ∧
    (∀ i, i < o.length →
      (egg_differences o n names).getD i ("", 0) =
        egg_row n names (o.getD i ("", ⟨none⟩))) ∧
    egg_differences o (n.filter (fun q => (lookupA o q.1).isSome)) names =
      egg_differences o n names ∧
    (sorted_egg_differences o n names).Perm (egg_differences o n names) := by
  refine ⟨by simp [egg_differences], ?_, ?_, ?_⟩
  · intro i hi
    simp only [egg_differences]
    rw [List.getD_eq_getElem _ _ (by simpa using hi), List.getElem_map,
      List.getD_eq_getElem _ _ hi]
  · unfold egg_differences
    apply List.map_congr_left
    intro p hp
    obtain ⟨k, v⟩ := p
    have hks : (lookupA o k).isSome = true := lookupA_isSome_of_mem o k v hp
    simp only [egg_row, lookupA_filter_isSome o n k hks]
  · unfold sorted_egg_differences
    exact List.mergeSort_perm _ _

/-- Witness for C10: reference snapshot holds member `"1"` only; the fresh
data holds `"1"` and the new member `"2"`, which filtering away does not
change the report. -/
theorem egg_differences_reference_only_witness :
    (0 < ([("1", (⟨some 1⟩ : V1Stats))] : List (String × V1Stats)).length) ∧
    (egg_differences [("1", ⟨some 1⟩)] [("1", ⟨some 4⟩), ("2", ⟨some 9⟩)]
        [("1", "Alice"), ("2", "Bob")]).getD 0 ("", 0) =
      egg_row [("1", ⟨some 4⟩), ("2", ⟨some 9⟩)] [("1", "Alice"), ("2", "Bob")]
        (([("1", (⟨some 1⟩ : V1Stats))]).getD 0 ("", ⟨none⟩)) ∧
    egg_differences [("1", ⟨some 1⟩)]
        (([("1", ⟨some 4⟩), ("2", ⟨some 9⟩)] : List (String × V1Stats)).filter
          (fun q => (lookupA [("1", (⟨some 1⟩ : V1Stats))] q.1).isSome))
        [("1", "Alice"), ("2", "Bob")] =
      egg_differences [("1", ⟨some 1⟩)] [("1", ⟨some 4⟩), ("2", ⟨some 9⟩)]
        [("1", "Alice"), ("2", "Bob")] :=
  ⟨by decide,
    (egg_differences_reference_only [("1", ⟨some 1⟩)]
      [("1", ⟨some 4⟩), ("2", ⟨some 9⟩)] [("1", "Alice"), ("2", "Bob")]).2.1
      0 (by decide),
    (egg_differences_reference_only [("1", ⟨some 1⟩)]
      [("1", ⟨some 4⟩), ("2", ⟨some 9⟩)] [("1", "Alice"), ("2", "Bob")]).2.2.1⟩

/-- C1 counterexample: in `egg_hunt.py`, a member whose reference snapshot
shows 5 eggs and whose fresh fetch shows 2 gets difference `-3` in the
report, not `max 0 (2 - 5) = 0`: the V1 metric is not floored at 0. -/
theorem egg_differences_not_floored_counterexample :
    egg_differences [("1", ⟨some 5⟩)] [("1", ⟨some 2⟩)] [("1", "Alice")] =
      [("Alice", -3)] ∧
    (-3 : Int) < 0 ∧ max 0 ((2 : Int) - 5) = 0 := by
  refine ⟨by decide, by decide, by decide⟩

end EggHunt
